import Mathlib

/-!
Shallow embedding of the feedback-driven learning aggregation pipeline of
tiger-bot-scout (src/api/server.ts and the telegram bot module).

The persisted store (tables `leads`, `script_feedback`, `hive_learnings`)
is modelled as lists of records; the SQL statements of the endpoints are
translated operation by operation:

* `POST /ai-crm/feedback/:scriptId` (server.ts:336-382)  → `submitFeedback`
* `INSERT ... ON CONFLICT (content) DO UPDATE` (server.ts:364-373) → `upsertLearning`
* `POST /ai-crm/scripts/generate` (server.ts:385-467)    → `generateScript`
* `GET /ai-crm/hive/learnings` (server.ts:470-493)       → `IsListLearningsResult`
* `GET /ai-crm/hive/leaderboard` (server.ts:496-515)     → `IsLeaderboardResult`
* `generateDailyReport` (telegram-bot.ts)                → `generateDailyReport`

External effects are parameters: the AI call is an `Option String`
(`none` = the call threw, `some s` = the text extracted from the response,
which is `""` when the response carried no text block), and a learning-store
upsert that throws is the `upsertOk = false` case.  Timestamps are `Nat`.
-/

namespace TigerBot

/-- Feedback values accepted by the feedback endpoint. -/
inductive Feedback where
  | no_response
  | got_reply
  | converted
deriving DecidableEq, Repr

/-- Validation of the request body's `feedback` string:
`['no_response', 'got_reply', 'converted'].includes(feedback)` (server.ts:341). -/
def parseFeedback (s : String) : Option Feedback :=
  if s = "no_response" then some .no_response
  else if s = "got_reply" then some .got_reply
  else if s = "converted" then some .converted
  else none

/-- The check `feedback === 'got_reply' || feedback === 'converted'` (server.ts:353). -/
def Feedback.isPositive : Feedback → Bool
  | .got_reply => true
  | .converted => true
  | .no_response => false

/-- A row of the `leads` table (the fields the pipeline reads). -/
structure Prospect where
  id : Nat
  name : String
  source : String
  notes : Option String
  score : Nat
  createdAt : Nat
deriving DecidableEq, Repr

/-- A row of the `script_feedback` table. -/
structure Script where
  id : Nat
  prospectId : Option Nat
  text : String
  scriptType : String
  feedback : Option Feedback
  feedbackAt : Option Nat
  createdAt : Nat
deriving DecidableEq, Repr

/-- The JSON `context` column: `{ source, signal: notes, feedback }`
built at server.ts:371 from the joined lead row. -/
structure LearningContext where
  source : Option String
  signal : Option String
  feedback : Feedback
deriving DecidableEq, Repr

/-- A row of the `hive_learnings` table. -/
structure Learning where
  learningType : String
  content : String
  context : LearningContext
  successCount : Nat
  createdAt : Nat
deriving DecidableEq, Repr

/-- The persisted database state. -/
structure Store where
  leads : List Prospect
  scripts : List Script
  learnings : List Learning
deriving DecidableEq, Repr

/-- The statement `INSERT INTO hive_learnings (learning_type, content, context,
success_count) VALUES ($1, $2, $3, 1) ON CONFLICT (content) DO UPDATE SET
success_count = hive_learnings.success_count + 1` (server.ts:364-373): if a row
with this content exists its counter is incremented and nothing else changes,
otherwise a fresh row with counter 1 is inserted. -/
def upsertLearning (ls : List Learning) (ltype content : String)
    (ctx : LearningContext) (now : Nat) : List Learning :=
  if ls.any (fun l => l.content == content) then
    ls.map (fun l =>
      if l.content == content then
        { l with successCount := l.successCount + 1 }
      else l)
  else
    ls ++ [{ learningType := ltype, content := content, context := ctx,
             successCount := 1, createdAt := now }]

/-- The `LEFT JOIN leads l ON sf.prospect_id = l.id` of the script read-back
(server.ts:354-360): resolve the script's prospect row, if any. -/
def lookupProspect (leads : List Prospect) (pid : Option Nat) : Option Prospect :=
  pid.bind (fun i => leads.find? (fun p => p.id == i))

/-- Outcome of one request: the HTTP-level response and the database state
after the handler ran. -/
structure SubmitResult where
  response : Except String Unit
  state : Store
deriving Repr

/-- The SET clause of the handler of `POST /ai-crm/feedback/:scriptId`
(server.ts:347-349): `UPDATE script_feedback SET feedback = $1, feedback_at =
NOW() WHERE id = $2`, applied row-wise.  The handler runs it with the
learning-store upsert's success as the parameter `upsertOk` (its failure is a
thrown query reaching the handler's catch block, which responds 500; the
feedback UPDATE before it has already been committed — there is no enclosing
transaction). -/
def setFeedback (scriptId : Nat) (fb : Feedback) (now : Nat) (s : Script) : Script :=
  if s.id == scriptId then
    { s with feedback := some fb, feedbackAt := some now }
  else s

/-- The handler body continued: validation, the UPDATE, the conditional
read-back and hive upsert, and the single catch block. -/
def submitFeedback (st : Store) (scriptId : Nat) (value : String) (now : Nat)
    (upsertOk : Bool) : SubmitResult :=
  match parseFeedback value with
  | none => ⟨.error "Invalid feedback type", st⟩
  | some fb =>
    let scripts := st.scripts.map (setFeedback scriptId fb now)
    let st1 : Store := { st with scripts := scripts }
    if fb.isPositive then
      match scripts.find? (fun s => s.id == scriptId) with
      | none => ⟨.ok (), st1⟩
      | some s =>
        if upsertOk then
          let p := lookupProspect st1.leads s.prospectId
          let stype := if s.scriptType = "" then "approach" else s.scriptType
          let ctx : LearningContext :=
            ⟨p.map (fun q => q.source), (p.bind (fun q => q.notes)), fb⟩
          ⟨.ok (), { st1 with
            learnings := upsertLearning st1.learnings
              ("winning_" ++ stype) s.text ctx now }⟩
        else ⟨.error "Internal server error", st1⟩
    else ⟨.ok (), st1⟩

/-- Outcome of a direct generation request: the returned script text or the
error message, and the database state after the handler ran. -/
structure GenResult where
  response : Except String String
  state : Store
deriving Repr

/-- The handler of `POST /ai-crm/scripts/generate` (server.ts:385-467), for a
request addressing the prospect by id.  `hasKey` is the presence of the
configured AI key; `aiResult` is the outcome of the AI call: `none` when the
call threw (caught at server.ts:463, responding 500 before any insert), and
`some txt` the text extracted from the response (`""` when the response's
first block was not text, server.ts:444). -/
def generateScript (st : Store) (prospectId : Nat) (hasKey : Bool)
    (aiResult : Option String) (newId : Nat) (now : Nat) : GenResult :=
  match st.leads.find? (fun p => p.id == prospectId) with
  | none => ⟨.error "Prospect not found", st⟩
  | some prospect =>
    if hasKey then
      match aiResult with
      | none => ⟨.error "Error generating script", st⟩
      | some script =>
        ⟨.ok script, { st with scripts := st.scripts ++
          [{ id := newId, prospectId := some prospect.id, text := script,
             scriptType := "approach", feedback := none, feedbackAt := none,
             createdAt := now }] }⟩
    else ⟨.error "AI service not configured", st⟩

/-- The structured content of a daily report: the telegram module's
`generateDailyReport` accumulates one Markdown string; its information
content is the empty-state marker, the per-prospect summary block, the
suggested-approaches block (prospect name paired with the generated text,
in generation order), and the trailing pipeline totals line. -/
structure Report where
  emptyState : Bool
  summaries : List Prospect
  approaches : List (String × String)
  totalCount : Nat
  qualifiedCount : Nat
deriving DecidableEq, Repr

/-- The selection `newProspects.rows.filter((p) => p.ai_score >= 70).slice(0, 3)`
of the report generator. -/
def selectTopProspects (newProspects : List Prospect) : List Prospect :=
  (newProspects.filter (fun p => 70 ≤ p.score)).take 3

/-- The `for (const p of topProspects)` loop of the report generator: each AI
call is attempted in order inside its own try/catch; on success the pair
(name, script) is appended to the report, on a thrown call (`gen p = none`)
the prospect is skipped. -/
def generateApproaches (gen : Prospect → Option String) :
    List Prospect → List (String × String)
  | [] => []
  | p :: rest =>
    match gen p with
    | some script => (p.name, script) :: generateApproaches gen rest
    | none => generateApproaches gen rest

/-- The telegram module's `generateDailyReport(db, anthropic)`.  `fetch` is the
outcome of the opening prospect query (`SELECT ... FROM leads WHERE created_at
>= $1 ORDER BY ai_score DESC`): when the store is unavailable this first query
throws and the whole function rejects before anything else runs, so store
unavailability is the `.error` case of `fetch`.  `totalCount` and
`qualifiedCount` are the two count queries that follow; `gen` is `none` when no
AI client is configured, otherwise the per-prospect AI call. -/
def generateDailyReport (fetch : Except Unit (List Prospect))
    (totalCount qualifiedCount : Nat)
    (gen : Option (Prospect → Option String)) : Except Unit Report :=
  match fetch with
  | .error e => .error e
  | .ok newProspects =>
    if newProspects.isEmpty then
      .ok { emptyState := true, summaries := [], approaches := [],
            totalCount := totalCount, qualifiedCount := qualifiedCount }
    else
      let approaches :=
        match gen with
        | none => []
        | some g => generateApproaches g (selectTopProspects newProspects)
      .ok { emptyState := false, summaries := newProspects,
            approaches := approaches,
            totalCount := totalCount, qualifiedCount := qualifiedCount }

/-- The comparison realized by `ORDER BY success_count DESC`. -/
def countDesc (a b : Learning) : Prop :=
  b.successCount ≤ a.successCount

instance : DecidableRel countDesc := fun a b => by
  unfold countDesc; exact inferInstance

/-- Result relation of `GET /ai-crm/hive/learnings` (server.ts:470-493):
`SELECT * FROM hive_learnings [WHERE learning_type = $t] ORDER BY
success_count DESC LIMIT $n`.  The engine returns the filtered rows in some
order that is sorted by `success_count` descending — the statement specifies
no further tie order — truncated to `limit`. -/
def IsListLearningsResult (table : List Learning) (typeFilter : Option String)
    (limit : Nat) (result : List Learning) : Prop :=
  ∃ full : List Learning,
    full.Perm (match typeFilter with
      | some t => table.filter (fun l => l.learningType == t)
      | none => table)
    ∧ full.Sorted countDesc
    ∧ result = full.take limit

/-- Result relation of `GET /ai-crm/hive/leaderboard` (server.ts:496-515):
the same query shape with no type filter and `LIMIT 10`. -/
def IsLeaderboardResult (table : List Learning) (result : List Learning) : Prop :=
  IsListLearningsResult table none 10 result

/-- Modelled from the spec's words (§4.2 listLearnings), for comparison with
the code: ordered by `successCount` descending, ties broken by creation time
ascending. -/
def claimedOrder (a b : Learning) : Prop :=
  b.successCount < a.successCount
  ∨ (a.successCount = b.successCount ∧ a.createdAt ≤ b.createdAt)

instance : DecidableRel claimedOrder := fun a b => by
  unfold claimedOrder; exact inferInstance

/-- One request against the pipeline, for reasoning about arbitrary
interleavings of generation and feedback submission. -/
inductive Op where
  | generate (prospectId : Nat) (hasKey : Bool) (aiResult : Option String)
      (newId : Nat) (now : Nat)
  | feedback (scriptId : Nat) (value : String) (now : Nat) (upsertOk : Bool)

/-- Apply one request's state change. -/
def applyOp (st : Store) : Op → Store
  | .generate pid hk ai nid now => (generateScript st pid hk ai nid now).state
  | .feedback sid v now ok => (submitFeedback st sid v now ok).state

/-- Run a sequence of requests. -/
def runOps (st : Store) : List Op → Store
  | [] => st
  | op :: rest => runOps (applyOp st op) rest

/-- The §3 invariant on script rows: `feedback_at` is non-null exactly when
`feedback` is. -/
def FeedbackInv (st : Store) : Prop :=
  ∀ s ∈ st.scripts, s.feedback.isSome = s.feedbackAt.isSome

instance (st : Store) : Decidable (FeedbackInv st) := by
  unfold FeedbackInv; exact inferInstance

/-! ## Concrete records for evaluating the operations -/

/-- A concrete lead row. -/
def demoLead : Prospect :=
  { id := 1, name := "Anan", source := "LINE",
    notes := some "asked about pricing", score := 85, createdAt := 100 }

/-- A concrete pending script row tied to `demoLead`. -/
def demoScript : Script :=
  { id := 1, prospectId := some 1, text := "Hi! Saw you asking about pricing",
    scriptType := "approach", feedback := none, feedbackAt := none,
    createdAt := 200 }

/-- A second pending script row with byte-identical text. -/
def demoScript2 : Script :=
  { id := 2, prospectId := some 1, text := "Hi! Saw you asking about pricing",
    scriptType := "approach", feedback := none, feedbackAt := none,
    createdAt := 300 }

/-- A concrete store with one lead and two pending identical scripts. -/
def demoStore : Store :=
  { leads := [demoLead], scripts := [demoScript, demoScript2], learnings := [] }

/-- A resolved variant of `demoScript` together with its learning row. -/
def demoResolvedScript : Script :=
  { demoScript with feedback := some .got_reply, feedbackAt := some 400 }

/-- The learning row produced by the first positive feedback on `demoScript`. -/
def demoLearning : Learning :=
  { learningType := "winning_approach", content := demoScript.text,
    context := { source := some "LINE", signal := some "asked about pricing",
                 feedback := .got_reply },
    successCount := 1, createdAt := 400 }

/-- A concrete store in which `demoScript` is already resolved and aggregated. -/
def demoResolvedStore : Store :=
  { leads := [demoLead], scripts := [demoResolvedScript, demoScript2],
    learnings := [demoLearning] }

/-! ## Helper lemmas about the list-level operations -/

theorem map_eq_self_of_fix {α : Type} (f : α → α) (l : List α)
    (h : ∀ x ∈ l, f x = x) : l.map f = l := by
  induction l with
  | nil => rfl
  | cons a t ih =>
    rw [List.map_cons, h a (List.mem_cons_self a t),
      ih (fun x hx => h x (List.mem_cons_of_mem a hx))]

theorem setFeedback_id (scriptId : Nat) (fb : Feedback) (now : Nat)
    (s : Script) : (setFeedback scriptId fb now s).id = s.id := by
  unfold setFeedback; split <;> rfl

theorem find?_map_setFeedback (scripts : List Script) (id1 id2 : Nat)
    (fb : Feedback) (now : Nat) :
    (scripts.map (setFeedback id1 fb now)).find? (fun s => s.id == id2)
      = (scripts.find? (fun s => s.id == id2)).map (setFeedback id1 fb now) := by
  rw [List.find?_map]
  have hcomp : ((fun s : Script => s.id == id2) ∘ setFeedback id1 fb now)
      = (fun s : Script => s.id == id2) := by
    funext s
    simp [Function.comp, setFeedback_id]
  rw [hcomp]

theorem upsertLearning_new (ls : List Learning) (ltype c : String)
    (ctx : LearningContext) (now : Nat)
    (h : ls.filter (fun l => l.content == c) = []) :
    upsertLearning ls ltype c ctx now
      = ls ++ [{ learningType := ltype, content := c, context := ctx,
                 successCount := 1, createdAt := now }] := by
  have hany : ls.any (fun l => l.content == c) = false := by
    rw [List.any_eq_false]
    intro x hx
    exact (List.filter_eq_nil_iff.mp h) x hx
  unfold upsertLearning
  rw [hany]
  simp

theorem filter_upsertLearning_existing (ls : List Learning) (ltype c : String)
    (ctx : LearningContext) (now : Nat) (l0 : Learning)
    (h : ls.filter (fun l => l.content == c) = [l0]) :
    (upsertLearning ls ltype c ctx now).filter (fun l => l.content == c)
      = [{ l0 with successCount := l0.successCount + 1 }] := by
  have hmem : l0 ∈ ls.filter (fun l => l.content == c) := by
    rw [h]; exact List.mem_singleton_self l0
  have hl0 : (l0.content == c) = true := (List.mem_filter.mp hmem).2
  have hany : ls.any (fun l => l.content == c) = true := by
    rw [List.any_eq_true]
    exact ⟨l0, (List.mem_filter.mp hmem).1, hl0⟩
  unfold upsertLearning
  rw [if_pos hany]
  rw [List.filter_map]
  have hcomp : ((fun l : Learning => l.content == c) ∘
      (fun l : Learning => if l.content == c then
        { l with successCount := l.successCount + 1 } else l))
      = (fun l : Learning => l.content == c) := by
    funext l
    by_cases hc : (l.content == c) = true <;> simp [Function.comp, hc]
  rw [hcomp, h, List.map_singleton]
  simp [hl0]

/-! ## Claim theorems -/

/-- C8: for every call of the feedback endpoint whose feedback value is not
one of `no_response`, `got_reply`, `converted`, the handler responds with the
`Invalid feedback type` error and performs no mutation — the database state,
including every script's feedback field and the learnings table, is returned
exactly as it was. -/
theorem invalid_feedback_rejected_no_mutation (st : Store)
    (scriptId now : Nat) (upsertOk : Bool) (value : String)
    (h1 : value ≠ "no_response") (h2 : value ≠ "got_reply")
    (h3 : value ≠ "converted") :
    (submitFeedback st scriptId value now upsertOk).response
        = .error "Invalid feedback type"
    ∧ (submitFeedback st scriptId value now upsertOk).state = st := by
  have hp : parseFeedback value = none := by
    simp [parseFeedback, h1, h2, h3]
  unfold submitFeedback
  rw [hp]
  exact ⟨rfl, rfl⟩

/-- C8 witness: `submitFeedback(id, "maybe")` is rejected and mutates
nothing. -/
theorem invalid_feedback_rejected_no_mutation_witness :
    (submitFeedback demoStore 1 "maybe" 5 true).response
        = .error "Invalid feedback type"
    ∧ (submitFeedback demoStore 1 "maybe" 5 true).state = demoStore :=
  invalid_feedback_rejected_no_mutation demoStore 1 5 true "maybe"
    (by decide) (by decide) (by decide)

/-- C5 counterexample: submitting feedback for a script id that refers to no
existing script does not fail with NotFound — the handler responds with
success (the claim asserts it fails). -/
theorem missing_script_feedback_counterexample :
    (submitFeedback { leads := [], scripts := [], learnings := [] }
        1 "got_reply" 0 true).response = .ok () := by
  rfl

/-- C5 (amended): for every scriptId that does not refer to an existing
script and any of the three recognized feedback values, the feedback
submission succeeds (responds with success, not NotFound) and performs no
mutation: no script or learning record is created or modified. -/
theorem missing_script_feedback_noop (st : Store) (scriptId now : Nat)
    (upsertOk : Bool) (value : String) (fb : Feedback)
    (hv : parseFeedback value = some fb)
    (hmiss : st.scripts.find? (fun s => s.id == scriptId) = none) :
    (submitFeedback st scriptId value now upsertOk).response = .ok ()
    ∧ (submitFeedback st scriptId value now upsertOk).state = st := by
  have hall : ∀ s ∈ st.scripts, (s.id == scriptId) = false := by
    intro s hs
    have := List.find?_eq_none.mp hmiss s hs
    simpa using this
  have hmap : st.scripts.map (setFeedback scriptId fb now) = st.scripts := by
    apply map_eq_self_of_fix
    intro s hs
    unfold setFeedback
    rw [hall s hs]
    simp
  unfold submitFeedback
  rw [hv]
  simp only [hmap]
  have hstore : ({ st with scripts := st.scripts } : Store) = st := rfl
  cases hfb : fb.isPositive with
  | false => simp [hfb]
  | true => simp [hfb, hmiss]

/-- C5 witness: on a store holding a lead but no script with id 9, all three
recognized values succeed without mutating anything. -/
theorem missing_script_feedback_noop_witness :
    (submitFeedback demoStore 9 "converted" 3 true).response = .ok ()
    ∧ (submitFeedback demoStore 9 "converted" 3 true).state = demoStore :=
  missing_script_feedback_noop demoStore 9 3 true "converted" .converted
    (by decide) (by decide)

/-- C3 counterexample: when the learning-store upsert fails after the feedback
write, the feedback submission does not report success — the handler's catch
block responds with the 500 error (the claim asserts the aggregation failure
is only logged and success is still reported). -/
theorem upsert_failure_error_counterexample :
    (submitFeedback demoStore 1 "got_reply" 7 false).response
      = .error "Internal server error" := by
  rfl

/-- C3 (amended): if the learning-store upsert fails during a positive
feedback submission after the feedback write, the script's feedback and
feedbackAt fields remain set (the feedback write is not rolled back) and no
learning is written, but the aggregation failure is surfaced to the caller as
an error of the feedback submission (500) rather than reported as success. -/
theorem upsert_failure_keeps_feedback_write (st : Store)
    (scriptId now : Nat) (value : String) (fb : Feedback) (s : Script)
    (hv : parseFeedback value = some fb) (hpos : fb.isPositive = true)
    (hfind : st.scripts.find? (fun x => x.id == scriptId) = some s) :
    (submitFeedback st scriptId value now false).response
        = .error "Internal server error"
    ∧ (submitFeedback st scriptId value now false).state.scripts.find?
        (fun x => x.id == scriptId)
      = some { s with feedback := some fb, feedbackAt := some now }
    ∧ (submitFeedback st scriptId value now false).state.learnings
        = st.learnings := by
  have hup : setFeedback scriptId fb now s
      = { s with feedback := some fb, feedbackAt := some now } := by
    have hsid : (s.id == scriptId) = true := by
      simpa using List.find?_some hfind
    unfold setFeedback
    rw [hsid]
    simp
  have hfind' : (st.scripts.map (setFeedback scriptId fb now)).find?
      (fun x => x.id == scriptId)
      = some { s with feedback := some fb, feedbackAt := some now } := by
    rw [find?_map_setFeedback, hfind]
    simp [hup]
  unfold submitFeedback
  rw [hv]
  simp only [hpos, if_true, hfind']
  exact ⟨rfl, hfind', rfl⟩

/-- C3 witness: a concrete positive submission with a failing upsert keeps the
feedback write, leaves the learnings untouched, and responds with the 500
error. -/
theorem upsert_failure_keeps_feedback_write_witness :
    (submitFeedback demoStore 1 "got_reply" 7 false).response
        = .error "Internal server error"
    ∧ (submitFeedback demoStore 1 "got_reply" 7 false).state.scripts.find?
        (fun x => x.id == 1)
      = some { demoScript with
               feedback := some Feedback.got_reply, feedbackAt := some 7 }
    ∧ (submitFeedback demoStore 1 "got_reply" 7 false).state.learnings
        = demoStore.learnings :=
  upsert_failure_keeps_feedback_write demoStore 1 7 "got_reply" Feedback.got_reply
    demoScript (by decide) (by decide) (by decide)

/-- C6 counterexample: when the AI returns empty content, the direct
generation endpoint does not fail — it responds with success carrying the
empty script and persists a Script row with empty text (the claim asserts a
GenerationError with no row persisted). -/
theorem empty_ai_content_counterexample :
    (generateScript demoStore 1 true (some "") 3 9).response = .ok ""
    ∧ (generateScript demoStore 1 true (some "") 3 9).state.scripts
      = demoStore.scripts ++
        [{ id := 3, prospectId := some 1, text := "", scriptType := "approach",
           feedback := none, feedbackAt := none, createdAt := 9 }] := by
  exact ⟨rfl, rfl⟩

/-- C6 (amended): for a direct script-generation request on an existing
prospect with the AI configured, if the AI call fails (throws) the operation
fails and no Script row is persisted (no partial writes); but if the AI
returns empty content the operation succeeds and persists a Script row whose
text is empty. -/
theorem generation_failure_vs_empty_content (st : Store)
    (prospectId newId now : Nat) (p : Prospect)
    (hp : st.leads.find? (fun q => q.id == prospectId) = some p) :
    ((generateScript st prospectId true none newId now).response
        = .error "Error generating script"
      ∧ (generateScript st prospectId true none newId now).state = st)
    ∧ ∀ txt : String,
        (generateScript st prospectId true (some txt) newId now).response
          = .ok txt
        ∧ (generateScript st prospectId true (some txt) newId now).state.scripts
          = st.scripts ++
            [{ id := newId, prospectId := some p.id, text := txt,
               scriptType := "approach", feedback := none, feedbackAt := none,
               createdAt := now }] := by
  unfold generateScript
  rw [hp]
  exact ⟨⟨rfl, rfl⟩, fun txt => ⟨rfl, rfl⟩⟩

/-- C6 witness: concrete runs of the generation endpoint on the demo store,
one with a thrown AI call and one with returned text. -/
theorem generation_failure_vs_empty_content_witness :
    ((generateScript demoStore 1 true none 3 9).response
        = .error "Error generating script"
      ∧ (generateScript demoStore 1 true none 3 9).state = demoStore)
    ∧ ∀ txt : String,
        (generateScript demoStore 1 true (some txt) 3 9).response = .ok txt
        ∧ (generateScript demoStore 1 true (some txt) 3 9).state.scripts
          = demoStore.scripts ++
            [{ id := 3, prospectId := some demoLead.id, text := txt,
               scriptType := "approach", feedback := none, feedbackAt := none,
               createdAt := 9 }] :=
  generation_failure_vs_empty_content demoStore 1 3 9 demoLead (by decide)

/-- C10: for a script that already has non-null feedback, a further positive
feedback submission succeeds, unconditionally overwrites `feedback` and
`feedbackAt`, and increments the `successCount` of the (unique) Learning whose
content equals the script's text by one more — so repeated submissions on one
script keep raising the counter. -/
theorem resubmission_overwrites_and_increments (st : Store)
    (scriptId now : Nat) (value : String) (fb : Feedback) (s : Script)
    (l0 : Learning)
    (hv : parseFeedback value = some fb) (hpos : fb.isPositive = true)
    (hfind : st.scripts.find? (fun x => x.id == scriptId) = some s)
    (hres : s.feedback.isSome = true)
    (hl : st.learnings.filter (fun l => l.content == s.text) = [l0]) :
    (submitFeedback st scriptId value now true).response = .ok ()
    ∧ (submitFeedback st scriptId value now true).state.scripts.find?
        (fun x => x.id == scriptId)
      = some { s with feedback := some fb, feedbackAt := some now }
    ∧ (submitFeedback st scriptId value now true).state.learnings.filter
        (fun l => l.content == s.text)
      = [{ l0 with successCount := l0.successCount + 1 }] := by
  have hsid : (s.id == scriptId) = true := by
    simpa using List.find?_some hfind
  have hup : setFeedback scriptId fb now s
      = { s with feedback := some fb, feedbackAt := some now } := by
    unfold setFeedback
    rw [hsid]
    simp
  have hfind' : (st.scripts.map (setFeedback scriptId fb now)).find?
      (fun x => x.id == scriptId)
      = some { s with feedback := some fb, feedbackAt := some now } := by
    rw [find?_map_setFeedback, hfind]
    simp [hup]
  unfold submitFeedback
  rw [hv]
  simp only [hpos, if_true, hfind']
  refine ⟨trivial, trivial, ?_⟩
  exact filter_upsertLearning_existing _ _ _ _ _ _ hl

/-- C10 witness: on the store where the demo script is already resolved and
aggregated with count 1, a second positive submission succeeds, overwrites the
feedback fields, and raises the learning's counter to 2. -/
theorem resubmission_overwrites_and_increments_witness :
    (submitFeedback demoResolvedStore 1 "converted" 11 true).response = .ok ()
    ∧ (submitFeedback demoResolvedStore 1 "converted" 11 true).state.scripts.find?
        (fun x => x.id == 1)
      = some { demoResolvedScript with
               feedback := some Feedback.converted, feedbackAt := some 11 }
    ∧ (submitFeedback demoResolvedStore 1 "converted" 11 true).state.learnings.filter
        (fun l => l.content == demoResolvedScript.text)
      = [{ demoLearning with successCount := 2 }] :=
  resubmission_overwrites_and_increments demoResolvedStore 1 11 "converted"
    Feedback.converted demoResolvedScript demoLearning
    (by decide) (by decide) (by decide) (by decide) (by decide)

theorem setFeedback_keeps_fields (scriptId : Nat) (fb : Feedback) (now : Nat)
    (s : Script) :
    (setFeedback scriptId fb now s).text = s.text
    ∧ (setFeedback scriptId fb now s).scriptType = s.scriptType
    ∧ (setFeedback scriptId fb now s).prospectId = s.prospectId := by
  unfold setFeedback
  split <;> exact ⟨rfl, rfl, rfl⟩

theorem submitFeedback_positive_ok (st : Store) (scriptId now : Nat)
    (value : String) (fb : Feedback) (s : Script)
    (hv : parseFeedback value = some fb) (hpos : fb.isPositive = true)
    (hfind : st.scripts.find? (fun x => x.id == scriptId) = some s) :
    submitFeedback st scriptId value now true
      = { response := .ok (),
          state := { leads := st.leads,
                     scripts := st.scripts.map (setFeedback scriptId fb now),
                     learnings := upsertLearning st.learnings
                       ("winning_" ++ (if s.scriptType = "" then "approach"
                                       else s.scriptType))
                       s.text
                       { source := (lookupProspect st.leads s.prospectId).map
                           (fun q => q.source),
                         signal := (lookupProspect st.leads s.prospectId).bind
                           (fun q => q.notes),
                         feedback := fb }
                       now } } := by
  have hfind' : (st.scripts.map (setFeedback scriptId fb now)).find?
      (fun x => x.id == scriptId) = some (setFeedback scriptId fb now s) := by
    rw [find?_map_setFeedback, hfind]
    rfl
  obtain ⟨he1, he2, he3⟩ := setFeedback_keeps_fields scriptId fb now s
  unfold submitFeedback
  rw [hv]
  simp only [hpos, if_true, hfind', he1, he2, he3]

/-- C1: for every pair of positive feedback submissions on two distinct
scripts whose texts are byte-identical (and whose content is not yet in the
learning set), after both complete there is exactly one Learning row for that
content, its successCount equals 2, and its content, learningType and context
equal the values written by the first insertion — first-write-wins for the
metadata, only the counter accumulates. -/
theorem positive_feedback_pair_single_learning (st : Store)
    (id1 id2 now1 now2 : Nat) (v1 v2 : String) (fb1 fb2 : Feedback)
    (s1 s2 : Script) (c : String)
    (hv1 : parseFeedback v1 = some fb1) (hpos1 : fb1.isPositive = true)
    (hv2 : parseFeedback v2 = some fb2) (hpos2 : fb2.isPositive = true)
    (hfind1 : st.scripts.find? (fun x => x.id == id1) = some s1)
    (hfind2 : st.scripts.find? (fun x => x.id == id2) = some s2)
    (hne : (s2.id == id1) = false)
    (ht1 : s1.text = c) (ht2 : s2.text = c)
    (hnone : st.learnings.filter (fun l => l.content == c) = []) :
    (submitFeedback (submitFeedback st id1 v1 now1 true).state
        id2 v2 now2 true).state.learnings.filter (fun l => l.content == c)
      = [{ learningType :=
             "winning_" ++ (if s1.scriptType = "" then "approach"
                            else s1.scriptType),
           content := c,
           context :=
             { source := (lookupProspect st.leads s1.prospectId).map
                 (fun q => q.source),
               signal := (lookupProspect st.leads s1.prospectId).bind
                 (fun q => q.notes),
               feedback := fb1 },
           successCount := 2, createdAt := now1 }] := by
  rw [submitFeedback_positive_ok st id1 now1 v1 fb1 s1 hv1 hpos1 hfind1]
  dsimp only
  rw [ht1, upsertLearning_new st.learnings _ c _ now1 hnone]
  have hfix : setFeedback id1 fb1 now1 s2 = s2 := by
    unfold setFeedback
    simp [hne]
  have hfind2' : (st.scripts.map (setFeedback id1 fb1 now1)).find?
      (fun x => x.id == id2) = some s2 := by
    rw [find?_map_setFeedback, hfind2, Option.map_some', hfix]
  rw [submitFeedback_positive_ok _ id2 now2 v2 fb2 s2 hv2 hpos2 hfind2']
  dsimp only
  rw [ht2]
  have hfilter1 : ((st.learnings ++
      [({ learningType :=
            "winning_" ++ (if s1.scriptType = "" then "approach"
                           else s1.scriptType),
          content := c,
          context :=
            { source := (lookupProspect st.leads s1.prospectId).map
                (fun q => q.source),
              signal := (lookupProspect st.leads s1.prospectId).bind
                (fun q => q.notes),
              feedback := fb1 },
          successCount := 1, createdAt := now1 } : Learning)]).filter
        (fun l => l.content == c))
      = [{ learningType :=
             "winning_" ++ (if s1.scriptType = "" then "approach"
                            else s1.scriptType),
           content := c,
           context :=
             { source := (lookupProspect st.leads s1.prospectId).map
                 (fun q => q.source),
               signal := (lookupProspect st.leads s1.prospectId).bind
                 (fun q => q.notes),
               feedback := fb1 },
           successCount := 1, createdAt := now1 }] := by
    rw [List.filter_append, hnone]
    simp
  exact filter_upsertLearning_existing _ _ _ _ _ _ hfilter1

/-- C1 witness: positive feedback on the two identical demo scripts yields a
single learning row with count 2 and the first submission's metadata. -/
theorem positive_feedback_pair_single_learning_witness :
    (submitFeedback (submitFeedback demoStore 1 "got_reply" 400 true).state
        2 "converted" 500 true).state.learnings.filter
        (fun l => l.content == "Hi! Saw you asking about pricing")
      = [{ learningType :=
             "winning_" ++ (if demoScript.scriptType = "" then "approach"
                            else demoScript.scriptType),
           content := "Hi! Saw you asking about pricing",
           context :=
             { source := (lookupProspect demoStore.leads
                 demoScript.prospectId).map (fun q => q.source),
               signal := (lookupProspect demoStore.leads
                 demoScript.prospectId).bind (fun q => q.notes),
               feedback := Feedback.got_reply },
           successCount := 2, createdAt := 400 }] :=
  positive_feedback_pair_single_learning demoStore 1 2 400 500
    "got_reply" "converted" Feedback.got_reply Feedback.converted
    demoScript demoScript2 "Hi! Saw you asking about pricing"
    (by decide) (by decide) (by decide) (by decide) (by decide) (by decide)
    (by decide) (by decide) (by decide) (by decide)

theorem generateApproaches_eq_filterMap (g : Prospect → Option String)
    (l : List Prospect) :
    generateApproaches g l
      = l.filterMap (fun p => (g p).map (fun s => (p.name, s))) := by
  induction l with
  | nil => rfl
  | cons p rest ih =>
    unfold generateApproaches
    cases hg : g p with
    | none => simp [List.filterMap_cons, hg, ih]
    | some s => simp [List.filterMap_cons, hg, ih]

/-- C4: a report run in which the AI call fails for some selected prospects
still succeeds; each failing prospect is omitted from the suggested-approaches
block, every prospect whose generation succeeded is included with its text,
the trailing pipeline totals are included, and the report as a whole fails
exactly when the initial prospect fetch fails. -/
theorem report_isolates_ai_failures (l : List Prospect) (t q : Nat)
    (g : Prospect → Option String) :
    (∃ r : Report, generateDailyReport (.ok l) t q (some g) = .ok r
      ∧ r.approaches = (selectTopProspects l).filterMap
          (fun p => (g p).map (fun s => (p.name, s)))
      ∧ r.totalCount = t ∧ r.qualifiedCount = q)
    ∧ ∀ gen, generateDailyReport (.error ()) t q gen = .error () := by
  constructor
  · by_cases hl : l.isEmpty
    · have hnil : l = [] := by
        cases l with
        | nil => rfl
        | cons a t => simp [List.isEmpty] at hl
      subst hnil
      exact ⟨{ emptyState := true, summaries := [], approaches := [],
               totalCount := t, qualifiedCount := q }, rfl, rfl, rfl, rfl⟩
    · refine ⟨{ emptyState := false, summaries := l,
                approaches := generateApproaches g (selectTopProspects l),
                totalCount := t, qualifiedCount := q }, ?_, ?_, rfl, rfl⟩
      · unfold generateDailyReport
        simp [hl]
      · exact generateApproaches_eq_filterMap g _
  · intro gen
    rfl

/-- A concrete fetched prospect list, score-descending, four rows at or above
the threshold and one below. -/
def demoFetched : List Prospect :=
  [{ id := 1, name := "A", source := "LINE", notes := none,
     score := 95, createdAt := 1 },
   { id := 2, name := "B", source := "IG", notes := none,
     score := 90, createdAt := 2 },
   { id := 3, name := "C", source := "FB", notes := none,
     score := 80, createdAt := 3 },
   { id := 4, name := "D", source := "IG", notes := none,
     score := 75, createdAt := 4 },
   { id := 5, name := "E", source := "X", notes := none,
     score := 40, createdAt := 5 }]

/-- C7: under the store's ordering contract (the fetched 24-hour window rows
arrive score-descending), the prospects selected for script generation in a
report run are exactly the highest-scoring qualifying prospects of the fetched
list, capped at 3: the selection is a sublist of the fetched list (so in
score-descending order), every selected prospect scores at least 70, its
length is exactly the smaller of 3 and the number of qualifying prospects (so
nothing is under-selected), no unselected qualifying prospect outscores any
selected one, and a qualifying prospect is only ever left out when the cap of
3 is already full. -/
theorem selected_prospects_top_qualified (l : List Prospect)
    (hs : l.Sorted (fun a b => b.score ≤ a.score)) :
    List.Sublist (selectTopProspects l) l
    ∧ (selectTopProspects l).length ≤ 3
    ∧ (selectTopProspects l).length
        = min 3 (l.filter (fun p => 70 ≤ p.score)).length
    ∧ (∀ p ∈ selectTopProspects l, 70 ≤ p.score)
    ∧ (selectTopProspects l).Sorted (fun a b => b.score ≤ a.score)
    ∧ (∀ p ∈ l, 70 ≤ p.score → p ∉ selectTopProspects l →
        ∀ p' ∈ selectTopProspects l, p.score ≤ p'.score)
    ∧ ∀ p ∈ l, 70 ≤ p.score → p ∉ selectTopProspects l →
        (selectTopProspects l).length = 3 := by
  have hsub : List.Sublist (selectTopProspects l) l := by
    unfold selectTopProspects
    exact (List.take_sublist _ _).trans (List.filter_sublist l)
  have hfilter_sorted : (l.filter (fun p => 70 ≤ p.score)).Sorted
      (fun a b => b.score ≤ a.score) := hs.filter _
  have hdropmem : ∀ p ∈ l, 70 ≤ p.score → p ∉ selectTopProspects l →
      p ∈ (l.filter (fun p => 70 ≤ p.score)).drop 3 := by
    intro p hpl hq hnot
    have hpf : p ∈ l.filter (fun p => 70 ≤ p.score) :=
      List.mem_filter.mpr ⟨hpl, by simpa using hq⟩
    have hsplit := List.take_append_drop 3 (l.filter (fun p => 70 ≤ p.score))
    rcases List.mem_append.mp (by rw [hsplit]; exact hpf) with h1 | h2
    · exact absurd h1 hnot
    · exact h2
  refine ⟨hsub, ?_, ?_, ?_, ?_, ?_, ?_⟩
  · unfold selectTopProspects
    simpa using List.length_take_le 3 (l.filter (fun p => 70 ≤ p.score))
  · unfold selectTopProspects
    exact List.length_take 3 (l.filter (fun p => 70 ≤ p.score))
  · intro p hp
    unfold selectTopProspects at hp
    have hp' := List.mem_of_mem_take hp
    have := (List.mem_filter.mp hp').2
    simpa using this
  · exact (hs.sublist hsub :)
  · intro p hpl hq hnot p' hp'
    have hpd := hdropmem p hpl hq hnot
    have hsplit := List.take_append_drop 3 (l.filter (fun p => 70 ≤ p.score))
    have hpair : ((l.filter (fun p => 70 ≤ p.score)).take 3
        ++ (l.filter (fun p => 70 ≤ p.score)).drop 3).Pairwise
        (fun a b => b.score ≤ a.score) := by
      rw [hsplit]
      exact hfilter_sorted
    exact (List.pairwise_append.mp hpair).2.2 p' hp' p hpd
  · intro p hpl hq hnot
    have hpd := hdropmem p hpl hq hnot
    have hpos : 0 < ((l.filter (fun p => 70 ≤ p.score)).drop 3).length :=
      List.length_pos_of_mem hpd
    rw [List.length_drop] at hpos
    unfold selectTopProspects
    rw [List.length_take]
    omega

/-- C7 witness: on a concrete score-descending fetched list with four
qualifying prospects, the selection keeps exactly the top three. -/
theorem selected_prospects_top_qualified_witness :
    List.Sublist (selectTopProspects demoFetched) demoFetched
    ∧ (selectTopProspects demoFetched).length ≤ 3
    ∧ (selectTopProspects demoFetched).length
        = min 3 (demoFetched.filter (fun p => 70 ≤ p.score)).length
    ∧ (∀ p ∈ selectTopProspects demoFetched, 70 ≤ p.score)
    ∧ (selectTopProspects demoFetched).Sorted (fun a b => b.score ≤ a.score)
    ∧ (∀ p ∈ demoFetched, 70 ≤ p.score → p ∉ selectTopProspects demoFetched →
        ∀ p' ∈ selectTopProspects demoFetched, p.score ≤ p'.score)
    ∧ ∀ p ∈ demoFetched, 70 ≤ p.score → p ∉ selectTopProspects demoFetched →
        (selectTopProspects demoFetched).length = 3 :=
  selected_prospects_top_qualified demoFetched (by decide)

/-- A learning row with counter 5, created later than its tie partner. -/
def tieA : Learning :=
  { learningType := "winning_approach", content := "script A",
    context := { source := some "LINE", signal := none,
                 feedback := .got_reply },
    successCount := 5, createdAt := 10 }

/-- A learning row with counter 5, created earlier than `tieA`. -/
def tieB : Learning :=
  { learningType := "winning_approach", content := "script B",
    context := { source := some "IG", signal := none,
                 feedback := .converted },
    successCount := 5, createdAt := 4 }

/-- A learning row with counter 3, the oldest. -/
def tieC : Learning :=
  { learningType := "winning_follow_up", content := "script C",
    context := { source := some "FB", signal := none,
                 feedback := .got_reply },
    successCount := 3, createdAt := 2 }

/-- C2 counterexample: for a table with counters [5,5,3], the leaderboard
query (ORDER BY success_count DESC, no secondary key) may return the two
count-5 rows with the later-created one first — a result the store's ordering
contract allows, yet one that violates the claimed creation-time-ascending
tie-break. -/
theorem leaderboard_tie_order_counterexample :
    IsLeaderboardResult [tieC, tieB, tieA] [tieA, tieB, tieC]
    ∧ ¬ ([tieA, tieB, tieC].Sorted claimedOrder) := by
  refine ⟨⟨[tieA, tieB, tieC], ?_, ?_, rfl⟩, ?_⟩
  · decide
  · decide
  · decide

/-- C2 (amended): every result of the learnings query — and of the
leaderboard view, which is the same query with no type filter and limit 10 —
is ordered by successCount descending and holds at most `limit` entries; the
relative order of entries with equal successCount is unspecified (the query
requests no creation-time tie-break). -/
theorem listLearnings_sorted_and_bounded (table : List Learning)
    (typeFilter : Option String) (limit : Nat) (result : List Learning)
    (h : IsListLearningsResult table typeFilter limit result) :
    result.Sorted countDesc ∧ result.length ≤ limit := by
  obtain ⟨full, hperm, hsort, hres⟩ := h
  subst hres
  constructor
  · exact hsort.sublist (List.take_sublist _ _)
  · simpa using List.length_take_le limit full

/-- C2 witness: a concrete singleton query result is counter-sorted and
within the limit. -/
theorem listLearnings_sorted_and_bounded_witness :
    ([tieA] : List Learning).Sorted countDesc
    ∧ ([tieA] : List Learning).length ≤ 10 :=
  listLearnings_sorted_and_bounded [tieA] none 10 [tieA]
    ⟨[tieA], by decide, by decide, rfl⟩

theorem feedbackInv_map_setFeedback (scripts : List Script) (sid : Nat)
    (fb : Feedback) (now : Nat)
    (h : ∀ s ∈ scripts, s.feedback.isSome = s.feedbackAt.isSome) :
    ∀ s ∈ scripts.map (setFeedback sid fb now),
      s.feedback.isSome = s.feedbackAt.isSome := by
  intro s hs
  obtain ⟨x, hx, rfl⟩ := List.mem_map.mp hs
  unfold setFeedback
  split
  · rfl
  · exact h x hx

theorem applyOp_feedbackInv (st : Store) (op : Op) (h : FeedbackInv st) :
    FeedbackInv (applyOp st op) := by
  cases op with
  | generate pid hk ai nid now =>
    show FeedbackInv (generateScript st pid hk ai nid now).state
    unfold generateScript
    cases hfind : st.leads.find? (fun p => p.id == pid) with
    | none => exact h
    | some p =>
      cases hk with
      | false => exact h
      | true =>
        cases ai with
        | none => exact h
        | some txt =>
          intro s hs
          rcases List.mem_append.mp hs with h1 | h2
          · exact h s h1
          · have hs2 : s = { id := nid, prospectId := some p.id,
                               text := txt, scriptType := "approach",
                               feedback := none, feedbackAt := none,
                               createdAt := now } := by
              simpa using h2
            subst hs2
            rfl
  | feedback sid v now ok =>
    show FeedbackInv (submitFeedback st sid v now ok).state
    unfold submitFeedback
    cases hv : parseFeedback v with
    | none => exact h
    | some fb =>
      have hm := feedbackInv_map_setFeedback st.scripts sid fb now h
      dsimp only
      split
      · cases hfind : (st.scripts.map (setFeedback sid fb now)).find?
            (fun s => s.id == sid) with
        | none => exact hm
        | some s =>
          cases ok with
          | false => exact hm
          | true => exact hm
      · exact hm

/-- C9: for every script record, after any sequence of generation and
feedback-submission requests starting from a state satisfying the invariant,
`feedbackAt` is non-null exactly when `feedback` is non-null — generation
inserts rows with both null and every feedback write sets both together. -/
theorem feedback_invariant_preserved (st : Store) (ops : List Op)
    (h : FeedbackInv st) : FeedbackInv (runOps st ops) := by
  induction ops generalizing st with
  | nil => exact h
  | cons op rest ih => exact ih (applyOp st op) (applyOp_feedbackInv st op h)

/-- C9 witness: a concrete run mixing generation, valid, invalid and
upsert-failing feedback requests preserves the invariant on the demo store. -/
theorem feedback_invariant_preserved_witness :
    FeedbackInv (runOps demoStore
      [Op.generate 1 true (some "hello") 7 50,
       Op.feedback 1 "got_reply" 60 true,
       Op.feedback 9 "bogus" 70 true,
       Op.feedback 2 "converted" 80 false]) :=
  feedback_invariant_preserved demoStore
    [Op.generate 1 true (some "hello") 7 50,
     Op.feedback 1 "got_reply" 60 true,
     Op.feedback 9 "bogus" 70 true,
     Op.feedback 2 "converted" 80 false]
    (by decide)

end TigerBot
